import Mathlib

/-!
Verification of the result-set grading engine of `result_grader.py`
(`ResultsTester` and its rubric `run_rubric_tests`).

Modelling conventions:
* A `ResultSet` is the pair of a column-name list and a row list, exactly the
  data `ResultsTester` holds for each of student and grader.
* Python floats are modelled by `ℚ`.  The only float arithmetic in the engine
  is `abs(1.0*a - b)/b <= threshold` on row/column counts; for such integer
  counts the double-precision computation agrees with exact rational
  arithmetic (the quotient rounds to `0.5` exactly if and only if it equals
  `0.5`), so the rational model is faithful.
* Python raising an exception is modelled by `Option`: the closeness tests
  raise `ZeroDivisionError` when the grader count is zero, hence return
  `none` there, and `run_rubric_tests`, which unconditionally runs them,
  returns `none` exactly when one of them raises.
* Python sequence comparison (used by `sorted`) is embedded as the
  lexicographic Boolean comparison `listLe`.  `np.lexsort` with the key list
  `[col 0, …, col (k-1)]` sorts with the LAST key primary, i.e. it orders
  rows lexicographically by their reversed value lists; `sort_array_allcols`
  reproduces that.  Both are total orders on rows, and the engine only ever
  compares the sorted outputs for equality.
-/

namespace ResultGrader

/-- A query result: ordered column names plus ordered rows of values
(`student_cols`/`student_rows` resp. `grader_cols`/`grader_rows` in the
source). -/
structure ResultSet (α : Type) : Type where
  cols : List String
  rows : List (List α)

section Engine

variable {α : Type} [LinearOrder α]

/-- Python sequence comparison `xs <= ys` (elementwise lexicographic, a
proper prefix is smaller), as used by Python `sorted` on lists of rows. -/
def listLe : List α → List α → Bool
  | [], _ => true
  | _ :: _, [] => false
  | a :: as, b :: bs => if a < b then true else if b < a then false else listLe as bs

/-- The comparison `listLe` as a relation, for use with `List.insertionSort`. -/
def rowLe (r s : List α) : Prop := listLe r s = true

instance : DecidableRel (@rowLe α _) := fun _ _ => inferInstanceAs (Decidable (_ = true))

/-- Python `sorted` on a list of rows (stable; key = the row itself,
compared lexicographically). -/
def sortRows (rows : List (List α)) : List (List α) := rows.insertionSort rowLe

/-- The row order realised by `sort_array_allcols` in the source:
`np.lexsort([array[:,i] for i in range(k)])` makes column `k-1` the primary
key, so rows are ordered lexicographically by their reversed value lists. -/
def npRowLe (r s : List α) : Prop := rowLe r.reverse s.reverse

instance : DecidableRel (@npRowLe α _) :=
  fun r s => inferInstanceAs (Decidable (rowLe r.reverse s.reverse))

/-- Function `sort_array_allcols` of the source: sort the rows of a table using all
columns as composite key, last column primary (see `npRowLe`). -/
def sort_array_allcols (rows : List (List α)) : List (List α) :=
  rows.insertionSort npRowLe

/-- Column selection `array[:, i]` for a whole permutation: numpy
`student_rows_array[:, i]` with `i = np.array(permutation)` replaces each row
`r` by `[r[p 0], r[p 1], …]`.  Indices are in range for well-formed input, so
the `getD` default is never consulted there. -/
def applyPerm {β : Type} [Inhabited β] (p : List ℕ) (r : List β) : List β :=
  p.map (fun i => r.getD i default)

/-- Test `rows_exact_test`: student rows equal grader rows, in order. -/
def rows_exact_test (s g : ResultSet α) : Bool := decide (s.rows = g.rows)

/-- Test `rows_count_exact_test`: equal row counts. -/
def rows_count_exact_test (s g : ResultSet α) : Bool :=
  decide (s.rows.length = g.rows.length)

/-- Test `rows_count_close_test`: `abs(1.0*len(student_rows) - len(grader_rows)) /
len(grader_rows) <= threshold`; raises `ZeroDivisionError` (here: `none`)
when the grader has no rows. -/
def rows_count_close_test (threshold : ℚ) (s g : ResultSet α) : Option Bool :=
  if g.rows.length = 0 then none
  else some (decide (|(s.rows.length : ℚ) - (g.rows.length : ℚ)| / (g.rows.length : ℚ) ≤ threshold))

/-- Test `rows_unsorted_guess`: sort within each row, then sort the list of rows,
and compare the two tables so canonicalised. -/
def rows_unsorted_guess (s g : ResultSet α) : Bool :=
  decide (sortRows (g.rows.map (fun row => row.insertionSort (· ≤ ·)))
    = sortRows (s.rows.map (fun row => row.insertionSort (· ≤ ·))))

/-- Test `cols_exact_test`: student columns equal grader columns, in order. -/
def cols_exact_test (s g : ResultSet α) : Bool := decide (s.cols = g.cols)

/-- Test `cols_count_exact_test`: equal column counts. -/
def cols_count_exact_test (s g : ResultSet α) : Bool :=
  decide (s.cols.length = g.cols.length)

/-- Test `cols_count_close_test`: as `rows_count_close_test`, on column counts. -/
def cols_count_close_test (threshold : ℚ) (s g : ResultSet α) : Option Bool :=
  if g.cols.length = 0 then none
  else some (decide (|(s.cols.length : ℚ) - (g.cols.length : ℚ)| / (g.cols.length : ℚ) ≤ threshold))

/-- Test `cols_unsorted_test`: `sorted(student_cols) == sorted(grader_cols)`. -/
def cols_unsorted_test (s g : ResultSet α) : Bool :=
  decide (s.cols.insertionSort (· ≤ ·) = g.cols.insertionSort (· ≤ ·))

/-- Test `rows_unsorted_test`: permutation-invariant table equivalence.  Shape
short-circuit, exact-order short-circuit, then enumeration of all column
permutations of the student table, comparing row-sorted forms against the
row-sorted grader table.  `itertools.permutations(range(k))` yields every
permutation of `0, …, k-1` exactly once; `List.permutations'` is the same
complete enumeration (in a different order, which is irrelevant under
`any`). -/
def rows_unsorted_test [Inhabited α] (s g : ResultSet α) : Bool :=
  if !cols_count_exact_test s g || !rows_count_exact_test s g then false
  else if rows_exact_test s g then true
  else
    (List.range s.cols.length).permutations'.any fun p =>
      decide (sort_array_allcols (s.rows.map (applyPerm p)) = sort_array_allcols g.rows)

/-- Line `results["keyword_test"] = True` in `run_rubric_tests` (the keyword test
is not implemented; its outcome is hard-coded). -/
def keyword_test : Bool := true

/-- Method `run_rubric_tests`: runs the row tests then the column tests (the
closeness tests raise when the grader is empty, giving `none`), picks the
score bucket by the first matching rule, then derives the hint list.  The
branch `if not results["keyword_test"]: hints.appned(...)` would raise
`AttributeError` (`appned` is not a list method); it is modelled by `none`
and is unreachable because `keyword_test` is hard-coded `true`. -/
def run_rubric_tests (s g : ResultSet α) : Option (ℚ × List String) :=
  match rows_count_close_test 0.5 s g, cols_count_close_test 0.5 s g with
  | some rcc, some ccc =>
    let rce := rows_count_exact_test s g
    let rug := rows_unsorted_guess s g
    let rex := rows_exact_test s g
    let cce := cols_count_exact_test s g
    let cun := cols_unsorted_test s g
    let cex := cols_exact_test s g
    let score : ℚ :=
      if rex && cex && keyword_test then 1
      else if rug && keyword_test then 0.8
      else if ((cun && rcc) || (cce && rce) || cex) && keyword_test then 0.6
      else if rcc && ccc then 0.4
      else 0
    if !keyword_test then none
    else
      let rowHints : List String :=
        if !rce then
          if s.rows.length > g.rows.length then ["Too many rows."] else ["Too few rows."]
        else []
      let colHints : List String :=
        if !cce then
          if s.cols.length > g.cols.length then ["Too many columns."] else ["Too few columns."]
        else if !cun then ["Columns are named incorrectly."]
        else if !cex then ["Columns are out of order."]
        else if rug && !rex then ["Rows are out of order."]
        else if rce && !rug then ["Incorrect column calculation"]
        else []
      some (score, rowHints ++ colHints)
  | _, _ => none

end Engine

section OrderLemmas

variable {α : Type} [LinearOrder α]

theorem listLe_refl (l : List α) : listLe l l = true := by
  induction l with
  | nil => rfl
  | cons a as ih => simp [listLe, lt_irrefl, ih]

theorem listLe_total (l₁ l₂ : List α) : listLe l₁ l₂ = true ∨ listLe l₂ l₁ = true := by
  induction l₁ generalizing l₂ with
  | nil => exact Or.inl rfl
  | cons a as ih =>
    cases l₂ with
    | nil => exact Or.inr rfl
    | cons b bs =>
      rcases lt_trichotomy a b with h | h | h
      · exact Or.inl (by simp [listLe, h])
      · subst h
        rcases ih bs with h' | h'
        · exact Or.inl (by simp [listLe, lt_irrefl, h'])
        · exact Or.inr (by simp [listLe, lt_irrefl, h'])
      · exact Or.inr (by simp [listLe, h])

theorem listLe_antisymm {l₁ l₂ : List α} (h₁ : listLe l₁ l₂ = true)
    (h₂ : listLe l₂ l₁ = true) : l₁ = l₂ := by
  induction l₁ generalizing l₂ with
  | nil =>
    cases l₂ with
    | nil => rfl
    | cons b bs => simp [listLe] at h₂
  | cons a as ih =>
    cases l₂ with
    | nil => simp [listLe] at h₁
    | cons b bs =>
      rcases lt_trichotomy a b with h | h | h
      · have hba : ¬ b < a := asymm h
        simp [listLe, h, hba] at h₂
      · subst h
        simp only [listLe, lt_irrefl, if_false] at h₁ h₂
        rw [ih h₁ h₂]
      · have hab : ¬ a < b := asymm h
        simp [listLe, h, hab] at h₁

theorem listLe_trans {l₁ l₂ l₃ : List α} (h₁ : listLe l₁ l₂ = true)
    (h₂ : listLe l₂ l₃ = true) : listLe l₁ l₃ = true := by
  induction l₁ generalizing l₂ l₃ with
  | nil => rfl
  | cons a as ih =>
    cases l₂ with
    | nil => simp [listLe] at h₁
    | cons b bs =>
      cases l₃ with
      | nil => simp [listLe] at h₂
      | cons c cs =>
        rcases lt_trichotomy a b with hab | hab | hab
        · rcases lt_trichotomy b c with hbc | hbc | hbc
          · simp [listLe, lt_trans hab hbc]
          · subst hbc; simp [listLe, hab]
          · have h' : ¬ b < c := asymm hbc
            simp [listLe, h', hbc] at h₂
        · subst hab
          simp only [listLe, lt_irrefl, if_false] at h₁
          rcases lt_trichotomy a c with hac | hac | hac
          · simp [listLe, hac]
          · subst hac
            simp only [listLe, lt_irrefl, if_false] at h₂ ⊢
            exact ih h₁ h₂
          · have h' : ¬ a < c := asymm hac
            simp [listLe, h', hac] at h₂
        · have h' : ¬ a < b := asymm hab
          simp [listLe, h', hab] at h₁

instance : IsTotal (List α) rowLe := ⟨fun a b => listLe_total a b⟩

instance : IsTrans (List α) rowLe := ⟨fun _ _ _ h₁ h₂ => listLe_trans h₁ h₂⟩

instance : IsAntisymm (List α) rowLe := ⟨fun _ _ h₁ h₂ => listLe_antisymm h₁ h₂⟩

instance : IsTotal (List α) npRowLe := ⟨fun a b => listLe_total a.reverse b.reverse⟩

instance : IsTrans (List α) npRowLe := ⟨fun _ _ _ h₁ h₂ => listLe_trans h₁ h₂⟩

instance : IsAntisymm (List α) npRowLe :=
  ⟨fun _ _ h₁ h₂ => List.reverse_injective (listLe_antisymm h₁ h₂)⟩

/-- Two lists have the same sorted form if and only if they are permutations
of one another (for any total, transitive, antisymmetric comparison).  This
is the key fact behind all the canonicalise-then-compare tests of the
engine. -/
theorem insertionSort_eq_iff_perm {β : Type} (r : β → β → Prop) [DecidableRel r]
    [IsTotal β r] [IsTrans β r] [IsAntisymm β r] (l₁ l₂ : List β) :
    l₁.insertionSort r = l₂.insertionSort r ↔ l₁.Perm l₂ := by
  constructor
  · intro h
    exact (List.perm_insertionSort r l₁).symm.trans (h ▸ List.perm_insertionSort r l₂)
  · intro h
    exact List.eq_of_perm_of_sorted
      (((List.perm_insertionSort r l₁).trans h).trans (List.perm_insertionSort r l₂).symm)
      (List.sorted_insertionSort r l₁) (List.sorted_insertionSort r l₂)

theorem sortRows_eq_iff_perm (l₁ l₂ : List (List α)) :
    sortRows l₁ = sortRows l₂ ↔ l₁.Perm l₂ :=
  insertionSort_eq_iff_perm rowLe l₁ l₂

theorem sort_array_allcols_eq_iff_perm (l₁ l₂ : List (List α)) :
    sort_array_allcols l₁ = sort_array_allcols l₂ ↔ l₁.Perm l₂ :=
  insertionSort_eq_iff_perm npRowLe l₁ l₂

theorem sortLe_eq_iff_perm {β : Type} [LinearOrder β] (l₁ l₂ : List β) :
    l₁.insertionSort (· ≤ ·) = l₂.insertionSort (· ≤ ·) ↔ l₁.Perm l₂ :=
  insertionSort_eq_iff_perm (· ≤ ·) l₁ l₂

end OrderLemmas

section EngineLemmas

variable {α : Type}

theorem map_getD_range {β : Type} [Inhabited β] (l : List β) :
    (List.range l.length).map (fun i => l.getD i default) = l := by
  apply List.ext_getElem
  · simp
  · intro i h₁ h₂
    simp [List.getD_eq_getElem?_getD, List.getElem?_eq_getElem h₂]

/-- Applying a genuine permutation of the column indices to a row of the
right arity permutes the row's entries. -/
theorem applyPerm_perm {β : Type} [Inhabited β] {p : List ℕ} {r : List β}
    (hp : p.Perm (List.range r.length)) : (applyPerm p r).Perm r := by
  have h := hp.map (fun i => r.getD i default)
  rw [map_getD_range] at h
  exact h

/-- Sorting inside a row is invariant under permuting the row first. -/
theorem sortWithin_applyPerm [LinearOrder α] [Inhabited α] {p : List ℕ} {r : List α}
    (hp : p.Perm (List.range r.length)) :
    (applyPerm p r).insertionSort (· ≤ ·) = r.insertionSort (· ≤ ·) :=
  (sortLe_eq_iff_perm _ _).mpr (applyPerm_perm hp)

theorem rows_count_close_test_eq (t : ℚ) (s g : ResultSet α) (h : g.rows ≠ []) :
    rows_count_close_test t s g
      = some (decide (|(s.rows.length : ℚ) - (g.rows.length : ℚ)| / (g.rows.length : ℚ) ≤ t)) := by
  rw [rows_count_close_test, if_neg]
  simpa using h

theorem cols_count_close_test_eq (t : ℚ) (s g : ResultSet α) (h : g.cols ≠ []) :
    cols_count_close_test t s g
      = some (decide (|(s.cols.length : ℚ) - (g.cols.length : ℚ)| / (g.cols.length : ℚ) ≤ t)) := by
  rw [cols_count_close_test, if_neg]
  simpa using h

theorem rows_count_close_test_none_iff (t : ℚ) (s g : ResultSet α) :
    rows_count_close_test t s g = none ↔ g.rows = [] := by
  rcases eq_or_ne g.rows.length 0 with h | h
  · rw [rows_count_close_test, if_pos h]
    simpa using List.length_eq_zero.mp h
  · rw [rows_count_close_test, if_neg h]
    simpa using fun hh => h (by simp [hh])

theorem cols_count_close_test_none_iff (t : ℚ) (s g : ResultSet α) :
    cols_count_close_test t s g = none ↔ g.cols = [] := by
  rcases eq_or_ne g.cols.length 0 with h | h
  · rw [cols_count_close_test, if_pos h]
    simpa using List.length_eq_zero.mp h
  · rw [cols_count_close_test, if_neg h]
    simpa using fun hh => h (by simp [hh])

theorem cols_unsorted_test_iff (s g : ResultSet α) :
    cols_unsorted_test s g = true ↔ s.cols.Perm g.cols := by
  rw [cols_unsorted_test, decide_eq_true_eq, sortLe_eq_iff_perm]

theorem cols_unsorted_test_eq_decide (s g : ResultSet α) :
    cols_unsorted_test s g = decide (s.cols.Perm g.cols) := by
  by_cases h : s.cols.Perm g.cols
  · rw [decide_eq_true h]
    exact (cols_unsorted_test_iff s g).mpr h
  · rw [decide_eq_false h, ← Bool.not_eq_true, cols_unsorted_test_iff]
    exact h

/-- Evaluation of `run_rubric_tests` once both closeness tests have run
without raising: the score bucket chain and the hint chain, with the
hard-coded `keyword_test` already discharged. -/
theorem run_rubric_tests_eq_of_close [LinearOrder α] (s g : ResultSet α) {rcc ccc : Bool}
    (h₁ : rows_count_close_test 0.5 s g = some rcc)
    (h₂ : cols_count_close_test 0.5 s g = some ccc) :
    run_rubric_tests s g = some (
      (if rows_exact_test s g && cols_exact_test s g then (1 : ℚ)
       else if rows_unsorted_guess s g then 0.8
       else if (cols_unsorted_test s g && rcc) || (cols_count_exact_test s g && rows_count_exact_test s g) || cols_exact_test s g then 0.6
       else if rcc && ccc then 0.4
       else 0),
      ((if !rows_count_exact_test s g then
          if s.rows.length > g.rows.length then ["Too many rows."] else ["Too few rows."]
        else []) ++
       (if !cols_count_exact_test s g then
          if s.cols.length > g.cols.length then ["Too many columns."] else ["Too few columns."]
        else if !cols_unsorted_test s g then ["Columns are named incorrectly."]
        else if !cols_exact_test s g then ["Columns are out of order."]
        else if rows_unsorted_guess s g && !rows_exact_test s g then ["Rows are out of order."]
        else if rows_count_exact_test s g && !rows_unsorted_guess s g then ["Incorrect column calculation"]
        else []))) := by
  rw [run_rubric_tests.eq_def, h₁, h₂]
  simp [keyword_test]

end EngineLemmas

section Claims

variable {α : Type}

/-- C3 (amended): the Boolean-valued predicates of the battery are total by
construction; the two closeness tests are the only partial ones — each is
defined exactly when the grader's corresponding count is nonzero, and raises
`ZeroDivisionError` (returns no value) whenever the grader count is zero,
regardless of the student's count.  This holds for every threshold. -/
theorem close_tests_defined_iff_grader_nonempty (t : ℚ) (s g : ResultSet α) :
    (rows_count_close_test t s g = none ↔ g.rows = [])
    ∧ (cols_count_close_test t s g = none ↔ g.cols = []) :=
  ⟨rows_count_close_test_none_iff t s g, cols_count_close_test_none_iff t s g⟩

/-- C3 witness: the definedness characterisation instantiated at threshold
0.5 and a concrete pair with an empty-rows grader. -/
theorem close_tests_defined_iff_grader_nonempty_witness :
    (rows_count_close_test 0.5 (⟨["a"], [[1]]⟩ : ResultSet Int) ⟨["a"], []⟩ = none
      ↔ (⟨["a"], []⟩ : ResultSet Int).rows = [])
    ∧ (cols_count_close_test 0.5 (⟨["a"], [[1]]⟩ : ResultSet Int) ⟨["a"], []⟩ = none
      ↔ (⟨["a"], []⟩ : ResultSet Int).cols = []) :=
  close_tests_defined_iff_grader_nonempty 0.5 (⟨["a"], [[1]]⟩ : ResultSet Int) ⟨["a"], []⟩

/-- C3 counterexample: with zero grader columns and zero student columns,
`cols_count_close_test` does not return `true` (as the claim asserts); it
raises (returns no value at all). -/
theorem cols_count_close_zero_zero_raises :
    cols_count_close_test 0.5 (⟨[], []⟩ : ResultSet Int) ⟨[], []⟩ = none
    ∧ cols_count_close_test 0.5 (⟨[], []⟩ : ResultSet Int) ⟨[], []⟩ ≠ some true := by
  constructor
  · rfl
  · intro h
    simp [cols_count_close_test] at h

/-- C4 counterexample: at the claim's crafted input — student rows
`[[1,2],[3,4]]`, grader rows `[[1,4],[3,2]]` — `rows_unsorted_guess` returns
`false`, not `true` as the claim asserts: the per-row-sorted forms are
`[[1,2],[3,4]]` and `[[1,4],[2,3]]`, which differ. -/
theorem quick_guess_false_at_claimed_input :
    rows_unsorted_guess (⟨["a", "b"], [[1, 2], [3, 4]]⟩ : ResultSet Int)
      ⟨["a", "b"], [[1, 4], [3, 2]]⟩ = false := by decide

/-- C4 (amended): at the claim's input both `rows_unsorted_guess` and
`rows_unsorted_test` return `false` (the input exhibits no divergence); a
quick-guess false positive does exist at the nearby input student rows
`[[1,2],[3,4]]` vs grader rows `[[2,1],[3,4]]`, where the per-row-sorted
forms coincide yet no column permutation relates the tables. -/
theorem quick_guess_false_positive_exists :
    (rows_unsorted_guess (⟨["a", "b"], [[1, 2], [3, 4]]⟩ : ResultSet Int)
        ⟨["a", "b"], [[1, 4], [3, 2]]⟩ = false
      ∧ rows_unsorted_test (⟨["a", "b"], [[1, 2], [3, 4]]⟩ : ResultSet Int)
        ⟨["a", "b"], [[1, 4], [3, 2]]⟩ = false)
    ∧ (rows_unsorted_guess (⟨["a", "b"], [[1, 2], [3, 4]]⟩ : ResultSet Int)
        ⟨["a", "b"], [[2, 1], [3, 4]]⟩ = true
      ∧ rows_unsorted_test (⟨["a", "b"], [[1, 2], [3, 4]]⟩ : ResultSet Int)
        ⟨["a", "b"], [[2, 1], [3, 4]]⟩ = false) := by decide

/-- C5: if the row counts or the column counts of the two ResultSets differ,
`rows_unsorted_test` returns `false`; the statement quantifies over all
tables with mismatched counts, so the outcome is determined by the counts
alone, independent of every cell value. -/
theorem rows_unsorted_test_shape_short_circuit [LinearOrder α] [Inhabited α]
    (s g : ResultSet α)
    (h : s.rows.length ≠ g.rows.length ∨ s.cols.length ≠ g.cols.length) :
    rows_unsorted_test s g = false := by
  have hc : (!cols_count_exact_test s g || !rows_count_exact_test s g) = true := by
    rcases h with h | h
    · simp [rows_count_exact_test, h]
    · simp [cols_count_exact_test, h]
  rw [rows_unsorted_test, if_pos hc]

/-- C5 witness: a concrete pair with unequal row counts on which the
short-circuit fires. -/
theorem rows_unsorted_test_shape_short_circuit_witness :
    ((⟨["a"], [[1]]⟩ : ResultSet Int).rows.length ≠ (⟨["a"], [[1], [2]]⟩ : ResultSet Int).rows.length
      ∨ (⟨["a"], [[1]]⟩ : ResultSet Int).cols.length ≠ (⟨["a"], [[1], [2]]⟩ : ResultSet Int).cols.length)
    ∧ rows_unsorted_test (⟨["a"], [[1]]⟩ : ResultSet Int) ⟨["a"], [[1], [2]]⟩ = false :=
  ⟨by decide, rows_unsorted_test_shape_short_circuit _ _ (by decide)⟩

/-- C9: the closeness threshold is boundary-inclusive — with 10 grader rows,
5 student rows give ratio exactly 0.5 and pass, while 4 student rows give
ratio 0.6 and fail. -/
theorem rows_count_close_boundary :
    rows_count_close_test 0.5 (⟨["a"], List.replicate 5 [0]⟩ : ResultSet Int)
        ⟨["a"], List.replicate 10 [0]⟩ = some true
    ∧ rows_count_close_test 0.5 (⟨["a"], List.replicate 4 [0]⟩ : ResultSet Int)
        ⟨["a"], List.replicate 10 [0]⟩ = some false := by
  constructor
  · rw [rows_count_close_test_eq 0.5 _ _ (by decide)]
    simp only [Option.some.injEq, decide_eq_true_eq, List.length_replicate]
    norm_num
  · rw [rows_count_close_test_eq 0.5 _ _ (by decide)]
    simp only [Option.some.injEq, decide_eq_false_iff_not, List.length_replicate]
    norm_num

/-- Method `run_rubric_tests` raises (returns no verdict) exactly when the grader
table has no rows or no columns: only the closeness tests can fail, and they
fail precisely on the grader's zero counts. -/
theorem run_rubric_tests_eq_none_iff [LinearOrder α] (s g : ResultSet α) :
    run_rubric_tests s g = none ↔ g.rows = [] ∨ g.cols = [] := by
  rcases hrow : rows_count_close_test 0.5 s g with _ | rcc
  · rw [run_rubric_tests.eq_def, hrow]
    have h := (rows_count_close_test_none_iff 0.5 s g).mp hrow
    simp [h]
  · have hne : g.rows ≠ [] := by
      intro hh
      rw [(rows_count_close_test_none_iff 0.5 s g).mpr hh] at hrow
      exact Option.noConfusion hrow
    rcases hcol : cols_count_close_test 0.5 s g with _ | ccc
    · rw [run_rubric_tests.eq_def, hrow, hcol]
      have h := (cols_count_close_test_none_iff 0.5 s g).mp hcol
      simp [h]
    · have hne' : g.cols ≠ [] := by
        intro hh
        rw [(cols_count_close_test_none_iff 0.5 s g).mpr hh] at hcol
        exact Option.noConfusion hcol
      rw [run_rubric_tests.eq_def, hrow, hcol]
      simp [keyword_test, hne, hne']

/-- C6: the quick guess never produces a false negative — whenever the exact
permutation-equivalence test `rows_unsorted_test` succeeds (and in particular
whenever the rows match exactly in order), `rows_unsorted_guess` succeeds as
well.  Well-formedness of the student table (§3: each row's length equals the
column count) is the standing ResultSet invariant. -/
theorem rows_unsorted_guess_complete [LinearOrder α] [Inhabited α] (s g : ResultSet α)
    (hwf : ∀ r ∈ s.rows, r.length = s.cols.length)
    (h : rows_unsorted_test s g = true ∨ rows_exact_test s g = true) :
    rows_unsorted_guess s g = true := by
  have hexact : s.rows = g.rows → rows_unsorted_guess s g = true := by
    intro he
    simp [rows_unsorted_guess, he]
  rcases h with h | h
  · rw [rows_unsorted_test] at h
    split at h
    · exact absurd h (by simp)
    · split at h
      · rename_i hex
        exact hexact ((decide_eq_true_eq).mp hex)
      · rw [List.any_eq_true] at h
        obtain ⟨p, hmem, heq⟩ := h
        rw [decide_eq_true_eq] at heq
        have hp : p.Perm (List.range s.cols.length) := List.mem_permutations'.mp hmem
        have hperm : (s.rows.map (applyPerm p)).Perm g.rows :=
          (sort_array_allcols_eq_iff_perm _ _).mp heq
        have h₁ : ((s.rows.map (applyPerm p)).map (fun row => row.insertionSort (· ≤ ·))).Perm
            (g.rows.map (fun row => row.insertionSort (· ≤ ·))) :=
          hperm.map _
        rw [List.map_map] at h₁
        have h₂ : s.rows.map ((fun row => row.insertionSort (· ≤ ·)) ∘ applyPerm p)
            = s.rows.map (fun row => row.insertionSort (· ≤ ·)) := by
          apply List.map_congr_left
          intro r hr
          exact sortWithin_applyPerm ((hwf r hr).symm ▸ hp)
        rw [h₂] at h₁
        rw [rows_unsorted_guess, decide_eq_true_eq]
        exact (sortRows_eq_iff_perm _ _).mpr h₁.symm
  · exact hexact ((decide_eq_true_eq).mp h)

/-- C6 witness: a pair relating by swapping the two columns; the exact test
succeeds and so does the quick guess. -/
theorem rows_unsorted_guess_complete_witness :
    (∀ r ∈ (⟨["a", "b"], [[1, 2]]⟩ : ResultSet Int).rows,
      r.length = (⟨["a", "b"], [[1, 2]]⟩ : ResultSet Int).cols.length)
    ∧ (rows_unsorted_test (⟨["a", "b"], [[1, 2]]⟩ : ResultSet Int) ⟨["b", "a"], [[2, 1]]⟩ = true
        ∨ rows_exact_test (⟨["a", "b"], [[1, 2]]⟩ : ResultSet Int) ⟨["b", "a"], [[2, 1]]⟩ = true)
    ∧ rows_unsorted_guess (⟨["a", "b"], [[1, 2]]⟩ : ResultSet Int) ⟨["b", "a"], [[2, 1]]⟩ = true :=
  ⟨by decide, by decide,
    rows_unsorted_guess_complete _ _ (by decide) (by decide)⟩

/-- C7: column-permutation invariance.  If table `B` is table `A` with its
column positions permuted by `p` (names permuted identically) and its rows
reordered arbitrarily, then `rows_unsorted_test A B` succeeds. -/
theorem rows_unsorted_test_column_permutation [LinearOrder α] [Inhabited α]
    (A B : ResultSet α) (p : List ℕ)
    (hp : p.Perm (List.range A.cols.length))
    (hcols : B.cols = applyPerm p A.cols)
    (hrows : B.rows.Perm (A.rows.map (applyPerm p))) :
    rows_unsorted_test A B = true := by
  have hclen : B.cols.length = A.cols.length := by
    rw [hcols, applyPerm, List.length_map, hp.length_eq, List.length_range]
  have hrlen : B.rows.length = A.rows.length := by
    rw [hrows.length_eq, List.length_map]
  rw [rows_unsorted_test]
  have hcond : (!cols_count_exact_test A B || !rows_count_exact_test A B) = false := by
    simp [cols_count_exact_test, rows_count_exact_test, hclen, hrlen]
  rw [if_neg (by simp [hcond])]
  by_cases hex : rows_exact_test A B = true
  · rw [if_pos hex]
  · rw [if_neg hex, List.any_eq_true]
    refine ⟨p, List.mem_permutations'.mpr hp, ?_⟩
    rw [decide_eq_true_eq]
    exact (sort_array_allcols_eq_iff_perm _ _).mpr hrows.symm

/-- C7 witness: `B` is `A` with the two columns swapped and the two rows
reversed. -/
theorem rows_unsorted_test_column_permutation_witness :
    ([1, 0].Perm (List.range (⟨["a", "b"], [[1, 2], [3, 4]]⟩ : ResultSet Int).cols.length))
    ∧ (⟨["b", "a"], [[4, 3], [2, 1]]⟩ : ResultSet Int).cols
        = applyPerm [1, 0] (⟨["a", "b"], [[1, 2], [3, 4]]⟩ : ResultSet Int).cols
    ∧ (⟨["b", "a"], [[4, 3], [2, 1]]⟩ : ResultSet Int).rows.Perm
        ((⟨["a", "b"], [[1, 2], [3, 4]]⟩ : ResultSet Int).rows.map (applyPerm [1, 0]))
    ∧ rows_unsorted_test (⟨["a", "b"], [[1, 2], [3, 4]]⟩ : ResultSet Int)
        ⟨["b", "a"], [[4, 3], [2, 1]]⟩ = true :=
  ⟨by decide, by decide, by decide,
    rows_unsorted_test_column_permutation _ _ [1, 0] (by decide) (by decide) (by decide)⟩

/-- C8 counterexample: a well-formed zero-row ResultSet graded against
itself does not yield score 1.0 with empty hints — the closeness tests
divide by the grader's zero row count and `run_rubric_tests` raises. -/
theorem identity_raises_on_zero_rows :
    run_rubric_tests (⟨["a"], []⟩ : ResultSet Int) ⟨["a"], []⟩ = none := by decide

/-- C8 (amended): grading a ResultSet with at least one row and at least one
column against itself yields score 1.0 and an empty hint list. -/
theorem run_rubric_tests_identity [LinearOrder α] (R : ResultSet α)
    (h₁ : R.rows ≠ []) (h₂ : R.cols ≠ []) :
    run_rubric_tests R R = some (1, []) := by
  rw [run_rubric_tests_eq_of_close R R (rows_count_close_test_eq 0.5 R R h₁)
    (cols_count_close_test_eq 0.5 R R h₂)]
  simp [rows_exact_test, cols_exact_test, rows_count_exact_test, cols_count_exact_test,
    cols_unsorted_test, rows_unsorted_guess]

/-- C8 witness: the identity property at a concrete one-row table. -/
theorem run_rubric_tests_identity_witness :
    ((⟨["a"], [[1]]⟩ : ResultSet Int).rows ≠ [] ∧ (⟨["a"], [[1]]⟩ : ResultSet Int).cols ≠ [])
    ∧ run_rubric_tests (⟨["a"], [[1]]⟩ : ResultSet Int) ⟨["a"], [[1]]⟩ = some (1, []) :=
  ⟨⟨by decide, by decide⟩, run_rubric_tests_identity _ (by decide) (by decide)⟩

/-- C1 counterexample: with a zero-row grader (a well-formed ResultSet) the
rubric raises inside the closeness tests and selects no score at all, so the
score is not drawn from the tier set for every well-formed pair. -/
theorem no_score_on_empty_grader :
    run_rubric_tests (⟨["a"], [[1]]⟩ : ResultSet Int) ⟨["a"], []⟩ = none := by decide

/-- C1 (amended): whenever the grader has at least one row and one column
(otherwise the closeness tests raise and no score is produced),
`run_rubric_tests` returns the score of the first matching tier — 1.0 for
exact rows and columns; else 0.8 on the quick guess; else 0.6 when (name
multisets match and rows are count-close) or (both counts exact) or columns
match exactly; else 0.4 when both counts are close; else 0.0 — and the score
is always one of {0, 0.4, 0.6, 0.8, 1}. -/
theorem run_rubric_tests_score_tiers [LinearOrder α] (s g : ResultSet α)
    (h₁ : g.rows ≠ []) (h₂ : g.cols ≠ []) :
    ∃ score hints, run_rubric_tests s g = some (score, hints)
      ∧ score = (if s.rows = g.rows ∧ s.cols = g.cols then (1 : ℚ)
          else if rows_unsorted_guess s g = true then 0.8
          else if (s.cols.Perm g.cols
                ∧ |(s.rows.length : ℚ) - (g.rows.length : ℚ)| / (g.rows.length : ℚ) ≤ 0.5)
              ∨ (s.cols.length = g.cols.length ∧ s.rows.length = g.rows.length)
              ∨ s.cols = g.cols then 0.6
          else if |(s.rows.length : ℚ) - (g.rows.length : ℚ)| / (g.rows.length : ℚ) ≤ 0.5
              ∧ |(s.cols.length : ℚ) - (g.cols.length : ℚ)| / (g.cols.length : ℚ) ≤ 0.5 then 0.4
          else 0)
      ∧ score ∈ ({0, 0.4, 0.6, 0.8, 1} : Set ℚ) := by
  refine ⟨_, _, run_rubric_tests_eq_of_close s g (rows_count_close_test_eq 0.5 s g h₁)
    (cols_count_close_test_eq 0.5 s g h₂), ?_, ?_⟩
  · simp only [rows_exact_test, cols_exact_test, rows_count_exact_test, cols_count_exact_test,
      cols_unsorted_test_eq_decide, Bool.and_eq_true, Bool.or_eq_true, decide_eq_true_eq,
      or_assoc]
  · split_ifs <;> simp

/-- C1 witness: at a concrete nonempty pair the rubric produces a verdict
whose score lies in the tier set. -/
theorem run_rubric_tests_score_tiers_witness :
    ((⟨["a"], [[2]]⟩ : ResultSet Int).rows ≠ [])
    ∧ ((⟨["a"], [[2]]⟩ : ResultSet Int).cols ≠ [])
    ∧ (∃ score hints,
        run_rubric_tests (⟨["a"], [[1]]⟩ : ResultSet Int) ⟨["a"], [[2]]⟩ = some (score, hints)
        ∧ score ∈ ({0, 0.4, 0.6, 0.8, 1} : Set ℚ)) :=
  ⟨by decide, by decide, by
    obtain ⟨score, hints, hrun, _, hmem⟩ :=
      run_rubric_tests_score_tiers (⟨["a"], [[1]]⟩ : ResultSet Int) ⟨["a"], [[2]]⟩
        (by decide) (by decide)
    exact ⟨score, hints, hrun, hmem⟩⟩

/-- C2 counterexample: at student `[[1]]` vs grader `[[2]]` (equal counts,
quick guess fails) the code emits the hint "Incorrect column calculation" —
a string outside the claim's hint vocabulary (which instead names
"incorrect computation"). -/
theorem hint_string_outside_claimed_vocabulary :
    run_rubric_tests (⟨["a"], [[1]]⟩ : ResultSet Int) ⟨["a"], [[2]]⟩
        = some (0.6, ["Incorrect column calculation"])
    ∧ "Incorrect column calculation" ∉ ["too many rows", "too few rows", "too many columns",
        "too few columns", "columns are named incorrectly", "columns are out of order",
        "rows are out of order", "incorrect computation"] := by
  have hr : rows_count_close_test 0.5 (⟨["a"], [[1]]⟩ : ResultSet Int) ⟨["a"], [[2]]⟩
      = some true := by
    rw [rows_count_close_test_eq 0.5 _ _ (by decide)]
    simp only [Option.some.injEq, decide_eq_true_eq]
    norm_num
  have hc : cols_count_close_test 0.5 (⟨["a"], [[1]]⟩ : ResultSet Int) ⟨["a"], [[2]]⟩
      = some true := by
    rw [cols_count_close_test_eq 0.5 _ _ (by decide)]
    simp only [Option.some.injEq, decide_eq_true_eq]
    norm_num
  have hex : rows_exact_test (⟨["a"], [[1]]⟩ : ResultSet Int) ⟨["a"], [[2]]⟩ = false := by decide
  have hcex : cols_exact_test (⟨["a"], [[1]]⟩ : ResultSet Int) ⟨["a"], [[2]]⟩ = true := by decide
  have hrce : rows_count_exact_test (⟨["a"], [[1]]⟩ : ResultSet Int) ⟨["a"], [[2]]⟩ = true := by
    decide
  have hcce : cols_count_exact_test (⟨["a"], [[1]]⟩ : ResultSet Int) ⟨["a"], [[2]]⟩ = true := by
    decide
  have hcun : cols_unsorted_test (⟨["a"], [[1]]⟩ : ResultSet Int) ⟨["a"], [[2]]⟩ = true := by
    decide
  have hg : rows_unsorted_guess (⟨["a"], [[1]]⟩ : ResultSet Int) ⟨["a"], [[2]]⟩ = false := by
    decide
  refine ⟨?_, by decide⟩
  rw [run_rubric_tests_eq_of_close _ _ hr hc]
  simp [hex, hcex, hrce, hcce, hcun, hg]

/-- C2 (amended): for a grader with at least one row and one column, the
hint list is built in the claim's fixed order with each hint at most once,
drawn from the code's actual hint vocabulary — the code's literal strings
are capitalised with trailing periods, and the final hint reads "Incorrect
column calculation" rather than the claim's "incorrect computation". -/
theorem run_rubric_tests_hint_derivation [LinearOrder α] (s g : ResultSet α)
    (h₁ : g.rows ≠ []) (h₂ : g.cols ≠ []) :
    ∃ score hints, run_rubric_tests s g = some (score, hints)
      ∧ hints = (if s.rows.length ≠ g.rows.length then
            if s.rows.length > g.rows.length then ["Too many rows."] else ["Too few rows."]
          else [])
        ++ (if s.cols.length ≠ g.cols.length then
              if s.cols.length > g.cols.length then ["Too many columns."] else ["Too few columns."]
            else if ¬ s.cols.Perm g.cols then ["Columns are named incorrectly."]
            else if s.cols ≠ g.cols then ["Columns are out of order."]
            else if rows_unsorted_guess s g = true ∧ s.rows ≠ g.rows then ["Rows are out of order."]
            else if s.rows.length = g.rows.length ∧ rows_unsorted_guess s g = false then
              ["Incorrect column calculation"]
            else [])
      ∧ hints.Nodup
      ∧ ∀ h ∈ hints, h ∈ ["Too many rows.", "Too few rows.", "Too many columns.",
          "Too few columns.", "Columns are named incorrectly.", "Columns are out of order.",
          "Rows are out of order.", "Incorrect column calculation"] := by
  refine ⟨_, _, run_rubric_tests_eq_of_close s g (rows_count_close_test_eq 0.5 s g h₁)
    (cols_count_close_test_eq 0.5 s g h₂), ?_, ?_, ?_⟩
  · simp only [rows_exact_test, cols_exact_test, rows_count_exact_test, cols_count_exact_test,
      cols_unsorted_test_eq_decide, Bool.and_eq_true, Bool.not_eq_true', decide_eq_true_eq,
      decide_eq_false_iff_not]
  · split_ifs <;> decide
  · split_ifs <;> decide

/-- C2 witness: a concrete nonempty pair on which the produced hint list is
duplicate-free and drawn from the code's vocabulary. -/
theorem run_rubric_tests_hint_derivation_witness :
    ((⟨["a"], [[2]]⟩ : ResultSet Int).rows ≠ [])
    ∧ ((⟨["a"], [[2]]⟩ : ResultSet Int).cols ≠ [])
    ∧ (∃ score hints,
        run_rubric_tests (⟨["a"], [[1]]⟩ : ResultSet Int) ⟨["a"], [[2]]⟩ = some (score, hints)
        ∧ hints.Nodup) :=
  ⟨by decide, by decide, by
    obtain ⟨score, hints, hrun, _, hnd, _⟩ :=
      run_rubric_tests_hint_derivation (⟨["a"], [[1]]⟩ : ResultSet Int) ⟨["a"], [[2]]⟩
        (by decide) (by decide)
    exact ⟨score, hints, hrun, hnd⟩⟩

/-- C10: `keyword_test` is hard-coded `true`, so the hint branch that would
call the nonexistent list method `hints.appned` is unreachable:
`run_rubric_tests` fails only through the closeness tests' division by zero
(empty grader), and a produced hint list never contains
"Missing SQL Keyword". -/
theorem no_missing_keyword_hint [LinearOrder α] (s g : ResultSet α) :
    (run_rubric_tests s g).elim True (fun v => "Missing SQL Keyword" ∉ v.2)
    ∧ (run_rubric_tests s g = none ↔ g.rows = [] ∨ g.cols = []) := by
  refine ⟨?_, run_rubric_tests_eq_none_iff s g⟩
  rcases hrun : run_rubric_tests s g with _ | v
  · exact trivial
  · have h := run_rubric_tests_eq_none_iff s g
    rw [hrun] at h
    simp only [Option.some_ne_none, false_iff, not_or] at h
    obtain ⟨hr, hc⟩ := h
    rw [run_rubric_tests_eq_of_close s g (rows_count_close_test_eq 0.5 s g hr)
      (cols_count_close_test_eq 0.5 s g hc), Option.some.injEq] at hrun
    subst hrun
    simp only [Option.elim]
    split_ifs <;> decide

/-- C10 witness: the no-keyword-hint property instantiated at a concrete
nonempty pair. -/
theorem no_missing_keyword_hint_witness :
    (run_rubric_tests (⟨["a"], [[1]]⟩ : ResultSet Int) ⟨["a"], [[2]]⟩).elim True
      (fun v => "Missing SQL Keyword" ∉ v.2)
    ∧ (run_rubric_tests (⟨["a"], [[1]]⟩ : ResultSet Int) ⟨["a"], [[2]]⟩ = none
      ↔ (⟨["a"], [[2]]⟩ : ResultSet Int).rows = [] ∨ (⟨["a"], [[2]]⟩ : ResultSet Int).cols = []) :=
  no_missing_keyword_hint (⟨["a"], [[1]]⟩ : ResultSet Int) ⟨["a"], [[2]]⟩

end Claims

end ResultGrader
